import Mathlib

/-!
# pkg/varlinkapi/util.go

A shallow embedding of the helpers of `pkg/varlinkapi/util.go` and the
properties proved about them.

Conventions of the embedding

* A Go `error` is observed by this file only through its `Error()` method, so a
  non-nil error is a `GoError` carrying that string and `error` is
  `Option GoError` (`none` is the nil error).
* A Go `map[string]error` is `Option ErrMap`: `none` is the nil map, and a
  non-nil map is the sequence of its entries in the order in which `range`
  visits them (Go leaves that order unspecified, so every order is a possible
  input).  `some []` is the non-nil map without entries.
* `*libpod.Pod` is a valid pod handle: every caller in the package obtains it
  from a successful lookup before it reaches these helpers.
* A `VarlinkCall` emits replies; an operation on it returns a `CallResult`, the
  replies emitted in order together with the returned `error`.
* Go strings are modelled as sequences of Unicode code points.
-/

namespace Varlinkapi

/-! ## Data model -/

/-- Non-nil Go `error`, observed through `Error()`. -/
structure GoError where
  Error : String
deriving DecidableEq, Repr

/-- Entries of a non-nil `map[string]error` in `range` order. -/
abbrev ErrMap := List (String × GoError)

/-- The record `iopodman.PodContainerErrorData`. -/
structure PodContainerErrorData where
  Containerid : String
  Reason : String
deriving DecidableEq, Repr

/-- Go zero value of `iopodman.PodContainerErrorData`. -/
instance : Inhabited PodContainerErrorData := ⟨⟨"", ""⟩⟩

/-- Replies that `handlePodCall` can emit on a call. -/
inductive Reply where
  | ErrorOccurred (reason : String)
  | PodContainerError (podname : String) (errors : List PodContainerErrorData)
deriving DecidableEq, Repr

/-- The interface `iopodman.VarlinkCall`: `transport` is what writing a reply
on the connection returns. -/
structure VarlinkCall where
  transport : Reply → Option GoError

/-- Effect of an operation on a call: replies emitted and the returned error. -/
structure CallResult where
  sent : List Reply
  ret : Option GoError
deriving DecidableEq, Repr

/-- The method `call.ReplyErrorOccurred(reason)`. -/
def VarlinkCall.ReplyErrorOccurred (call : VarlinkCall) (reason : String) : CallResult :=
  ⟨[Reply.ErrorOccurred reason], call.transport (Reply.ErrorOccurred reason)⟩

/-- The method `call.ReplyPodContainerError(podname, errors)`. -/
def VarlinkCall.ReplyPodContainerError (call : VarlinkCall) (podname : String)
    (errors : List PodContainerErrorData) : CallResult :=
  ⟨[Reply.PodContainerError podname errors],
    call.transport (Reply.PodContainerError podname errors)⟩

/-- Instants of `time.Time`, as nanoseconds since the Unix epoch. -/
structure Time where
  unixNano : Int
deriving DecidableEq, Repr

/-- The handle `*libpod.Pod`, with what its accessors `ID()`, `Name()`,
`CgroupParent()` and `CreatedTime()` return. -/
structure Pod where
  ID : String
  Name : String
  CgroupParent : String
  CreatedTime : Time
deriving DecidableEq, Repr

/-! ## handlePodCall -/

/-- The slice `containerErrs` built by `handlePodCall`:
`make([]PodContainerErrorData, len(ctrErrs))` followed by one `append` per
entry visited by `range`. -/
def containerErrs (ctrErrs : ErrMap) : List PodContainerErrorData :=
  ctrErrs.foldl
    (fun acc entry => acc ++ [PodContainerErrorData.mk entry.1 entry.2.Error])
    (List.replicate ctrErrs.length default)

/-- The function `handlePodCall(call, pod, ctrErrs, err)`. -/
def handlePodCall (call : VarlinkCall) (pod : Pod) (ctrErrs : Option ErrMap)
    (err : Option GoError) : CallResult :=
  match err, ctrErrs with
  | some e, none => call.ReplyErrorOccurred e.Error
  | _, some m => call.ReplyPodContainerError pod.ID (containerErrs m)
  | none, none => ⟨[], none⟩

/-! ## Case conversion of the Go standard library -/

/-- Case tables of Go's `unicode` package for the runes above
`unicode.MaxASCII`: `upper r` is `unicode.To(unicode.UpperCase, r)` and
`lower r` is `unicode.To(unicode.LowerCase, r)`.  The tables are data of the Go
standard library, so the functions below take them as a parameter. -/
structure CaseTable where
  upper : Char → Char
  lower : Char → Char

/-- The function `unicode.ToUpper`: the ASCII fast path, then the table. -/
def unicodeToUpper (tbl : CaseTable) (r : Char) : Char :=
  if r.val ≤ 127 then r.toUpper else tbl.upper r

/-- The function `unicode.ToLower`: the ASCII fast path, then the table. -/
def unicodeToLower (tbl : CaseTable) (r : Char) : Char :=
  if r.val ≤ 127 then r.toLower else tbl.lower r

/-- The function `strings.ToUpper`: every rune mapped by `unicode.ToUpper`. -/
def ToUpper (tbl : CaseTable) (s : String) : String :=
  ⟨s.data.map (unicodeToUpper tbl)⟩

/-- The function `strings.ToLower`: every rune mapped by `unicode.ToLower`. -/
def ToLower (tbl : CaseTable) (s : String) : String :=
  ⟨s.data.map (unicodeToLower tbl)⟩

/-- The entries of Go's `unicode.CaseRanges` that relate a rune above
`unicode.MaxASCII` to an ASCII letter: U+0131 and U+017F have the upper-case
forms `I` and `S`, U+0130 and U+212A have the lower-case forms `i` and `k`.
Every other rune above `unicode.MaxASCII` is left as it is by this table. -/
def asciiCaseRanges : CaseTable where
  upper := fun r =>
    if r = Char.ofNat 0x131 then 'I' else if r = Char.ofNat 0x17F then 'S' else r
  lower := fun r =>
    if r = Char.ofNat 0x130 then 'i' else if r = Char.ofNat 0x212A then 'k' else r

/-- Holds when every rune of `s` is at most `unicode.MaxASCII`. -/
def isASCII (s : String) : Bool :=
  s.data.all (fun r => decide (r.val ≤ 127))

/-- The string `s` with its letters `a` to `z` replaced by `A` to `Z` and every
other rune unchanged. -/
def upperASCII (s : String) : String :=
  ⟨s.data.map Char.toUpper⟩

/-! ## Enumeration parsing -/

/-- The type `archive.Compression`. -/
inductive Compression where
  | Uncompressed
  | Bzip2
  | Gzip
  | Xz
deriving DecidableEq, Repr

/-- The type `buildah.PullPolicy`. -/
inductive PullPolicy where
  | PullIfMissing
  | PullAlways
  | PullNever
deriving DecidableEq, Repr

/-- The function `stringCompressionToArchiveType(s)`. -/
def stringCompressionToArchiveType (tbl : CaseTable) (s : String) : Compression :=
  if ToUpper tbl s = "BZIP2" then Compression.Bzip2
  else if ToUpper tbl s = "GZIP" then Compression.Gzip
  else if ToUpper tbl s = "XZ" then Compression.Xz
  else Compression.Uncompressed

/-- The function `stringPullPolicyToType(s)`. -/
def stringPullPolicyToType (tbl : CaseTable) (s : String) : PullPolicy :=
  if ToUpper tbl s = "PULLIFMISSING" then PullPolicy.PullIfMissing
  else if ToUpper tbl s = "PULLALWAYS" then PullPolicy.PullAlways
  else if ToUpper tbl s = "PULLNEVER" then PullPolicy.PullNever
  else PullPolicy.PullIfMissing

/-! ## Optional values and list options -/

/-- The function `derefBool(inBool)`; `none` is the nil pointer. -/
def derefBool (inBool : Option Bool) : Bool :=
  match inBool with
  | none => false
  | some b => b

/-- The function `derefString(in)`; `none` is the nil pointer. -/
def derefString (inStr : Option String) : String :=
  match inStr with
  | none => ""
  | some s => s

/-- Values of Go's `int64`. -/
structure Int64 where
  val : Int
  inRange : -9223372036854775808 ≤ val ∧ val < 9223372036854775808

/-- Width of Go's `int` (`strconv.IntSize`) on the 64-bit targets. -/
def intSize : Nat := 64

/-- The Go conversion `int(x)` of an `int64`: two's-complement wrap-around to
`intSize` bits. -/
def toInt (x : Int64) : Int :=
  (x.val + 2 ^ (intSize - 1)) % 2 ^ intSize - 2 ^ (intSize - 1)

/-- The wire record `iopodman.PsOpts`; `none` is an absent optional field.
`makePsOpts` does not read `Filters`, `Quiet` and `Size`; the field `Sort` is
written `Sort_` here. -/
structure PsOpts where
  All : Bool
  Filters : Option (List String)
  Last : Option Int64
  Latest : Option Bool
  NoTrunc : Option Bool
  Pod : Option Bool
  Quiet : Option Bool
  Size : Option Bool
  Sort_ : Option String
  Sync : Option Bool

/-- The record `shared.PsOptions`, with the fields `makePsOpts` sets. -/
structure PsOptions where
  All : Bool
  Last : Int
  Latest : Bool
  NoTrunc : Bool
  Pod : Bool
  Size : Bool
  Sort_ : String
  Namespace : Bool
  Sync : Bool
deriving DecidableEq, Repr

/-- The function `makePsOpts(inOpts)`. -/
def makePsOpts (inOpts : PsOpts) : PsOptions :=
  let last : Int :=
    match inOpts.Last with
    | none => 0
    | some lastT => toInt lastT
  { All := inOpts.All
    Last := last
    Latest := derefBool inOpts.Latest
    NoTrunc := derefBool inOpts.NoTrunc
    Pod := derefBool inOpts.Pod
    Size := true
    Sort_ := derefString inOpts.Sort_
    Namespace := true
    Sync := derefBool inOpts.Sync }

/-! ## Decimal numerals -/

/-- The function `strconv.Itoa`: the decimal numeral of `i`, with a leading
minus sign for a negative `i`. -/
def Itoa (i : Int) : String :=
  match i with
  | Int.ofNat n => Nat.repr n
  | Int.negSucc n => "-" ++ Nat.repr (n + 1)

/-- Value of a decimal digit. -/
def digitValue (c : Char) : Option Nat :=
  if 48 ≤ c.toNat ∧ c.toNat ≤ 57 then some (c.toNat - 48) else none

/-- Reading of a run of decimal digits, most significant first. -/
def parseDigits : List Char → Nat → Option Nat
  | [], acc => some acc
  | c :: cs, acc =>
    match digitValue c with
    | none => none
    | some d => parseDigits cs (acc * 10 + d)

/-- Reading of a decimal numeral as an integer: an optional sign followed by at
least one digit.  On the numerals whose value fits in `int` this is what
`strconv.Atoi` returns. -/
def parseDecimal (s : String) : Option Int :=
  match s.data with
  | [] => none
  | c :: cs =>
    if c = '-' then
      if cs.isEmpty then none else (parseDigits cs 0).map (fun n => -(n : Int))
    else if c = '+' then
      if cs.isEmpty then none else (parseDigits cs 0).map (fun n => (n : Int))
    else (parseDigits (c :: cs) 0).map (fun n => (n : Int))

/-! ## Container and pod state supplied by the runtime -/

/-- The type `define.ContainerStatus`, an integer code. -/
structure ContainerStatus where
  code : Int
deriving DecidableEq, Repr

/-- A mount of the runtime spec (`Spec.Mounts`); the field `Type` is written
`Type_` here. -/
structure SpecMount where
  Destination : String
  Type_ : String
  Source : String
  Options : List String
deriving DecidableEq, Repr

/-- A port mapping of the container configuration (`ocicni.PortMapping`);
the ports are `int32` values. -/
structure PortMapping where
  HostPort : Int
  ContainerPort : Int
  Protocol : String
  HostIP : String
deriving DecidableEq, Repr

/-- The part of `libpod.ContainerConfig` read by this file. -/
structure ContainerConfig where
  Mounts : List SpecMount
  Args : List String
  PortMappings : List PortMapping
  RootfsImageName : String
  RootfsImageID : String
  CreatedTime : Time
  Name : String
  Labels : List (String × String)
deriving DecidableEq, Repr

/-- The record `shared.ContainerSize`. -/
structure ContainerSize where
  RootFsSize : Int
  RwSize : Int
deriving DecidableEq, Repr

/-- The state bundle `shared.BatchContainerStruct`, with the fields read by this
file; `Size = none` is the nil pointer. -/
structure BatchContainerStruct where
  ConConfig : ContainerConfig
  ConState : ContainerStatus
  Pid : Int
  Size : Option ContainerSize
deriving DecidableEq, Repr

/-- The record `shared.Namespace` returned by `shared.GetNamespaces`. -/
structure Namespace where
  User : String
  UTS : String
  PIDNS : String
  PID : String
  Cgroup : String
  NET : String
  MNT : String
  IPC : String
deriving DecidableEq, Repr

/-- The handle `*libpod.Container`, with what its accessor `ID()` returns. -/
structure Container where
  ID : String
deriving DecidableEq, Repr

/-- What `util.go` calls outside itself: the runtime queries of
`cmd/podman/shared` and `libpod`, the method `define.ContainerStatus.String`,
the constant `define.ContainerStateRunning`, and the formatting and the clock
of package `time`.  A query that returns `(value, error)` is an `Except`. -/
structure Collab where
  GetNamespaces : Int → Namespace
  GetPodStatus : Pod → Except GoError String
  AllContainers : Pod → Except GoError (List Container)
  BatchContainerOp : Container → PsOptions → Except GoError BatchContainerStruct
  StatusString : ContainerStatus → String
  ContainerStateRunning : ContainerStatus
  FormatRFC3339 : Time → String
  SinceString : Time → String

/-! ## Snapshot records -/

/-- The record `iopodman.ContainerMount`; the field `Type` is written `Type_`
here. -/
structure ContainerMount where
  Destination : String
  Type_ : String
  Source : String
  Options : List String
deriving DecidableEq, Repr

/-- The record `iopodman.ContainerPortMappings`. -/
structure ContainerPortMappings where
  Host_port : String
  Host_ip : String
  Protocol : String
  Container_port : String
deriving DecidableEq, Repr

/-- The record `iopodman.ContainerNameSpace`. -/
structure ContainerNameSpace where
  User : String
  Uts : String
  Pidns : String
  Pid : String
  Cgroup : String
  Net : String
  Mnt : String
  Ipc : String
deriving DecidableEq, Repr

/-- The record `iopodman.Container`, the container snapshot. -/
structure ContainerData where
  Id : String
  Image : String
  Imageid : String
  Command : List String
  Createdat : String
  Runningfor : String
  Status : String
  Ports : List ContainerPortMappings
  Rootfssize : Int
  Rwsize : Int
  Names : String
  Labels : List (String × String)
  Mounts : List ContainerMount
  Containerrunning : Bool
  Namespaces : ContainerNameSpace
deriving DecidableEq, Repr

/-- The record `iopodman.ListPodContainerInfo`. -/
structure ListPodContainerInfo where
  Id : String
  Status : String
  Name : String
deriving DecidableEq, Repr

/-- The record `iopodman.ListPodData`, the pod snapshot. -/
structure ListPodData where
  Id : String
  Name : String
  Createdat : String
  Cgroup : String
  Status : String
  Numberofcontainers : String
  Containersinfo : List ListPodContainerInfo
deriving DecidableEq, Repr

/-- Go zero value `iopodman.ListPodData{}`. -/
instance : Inhabited ListPodData := ⟨⟨"", "", "", "", "", "", []⟩⟩

/-! ## Snapshot builders -/

/-- The function `makeListContainer(containerID, batchInfo)`. -/
def makeListContainer (c : Collab) (containerID : String) (batchInfo : BatchContainerStruct) :
    ContainerData :=
  let ns := c.GetNamespaces batchInfo.Pid
  let mounts : List ContainerMount :=
    batchInfo.ConConfig.Mounts.foldl
      (fun mounts mount =>
        mounts ++ [ContainerMount.mk mount.Destination mount.Type_ mount.Source mount.Options])
      []
  let ports : List ContainerPortMappings :=
    batchInfo.ConConfig.PortMappings.foldl
      (fun ports pm =>
        ports ++ [ContainerPortMappings.mk (Itoa pm.HostPort) pm.HostIP pm.Protocol
          (Itoa pm.ContainerPort)])
      []
  let nspace : ContainerNameSpace :=
    { User := ns.User
      Uts := ns.UTS
      Pidns := ns.PIDNS
      Pid := ns.PID
      Cgroup := ns.Cgroup
      Net := ns.NET
      Mnt := ns.MNT
      Ipc := ns.IPC }
  let lc : ContainerData :=
    { Id := containerID
      Image := batchInfo.ConConfig.RootfsImageName
      Imageid := batchInfo.ConConfig.RootfsImageID
      Command := batchInfo.ConConfig.Args
      Createdat := c.FormatRFC3339 batchInfo.ConConfig.CreatedTime
      Runningfor := c.SinceString batchInfo.ConConfig.CreatedTime
      Status := c.StatusString batchInfo.ConState
      Ports := ports
      Rootfssize := 0
      Rwsize := 0
      Names := batchInfo.ConConfig.Name
      Labels := batchInfo.ConConfig.Labels
      Mounts := mounts
      Containerrunning := decide (batchInfo.ConState = c.ContainerStateRunning)
      Namespaces := nspace }
  match batchInfo.Size with
  | none => lc
  | some size => { lc with Rootfssize := size.RootFsSize, Rwsize := size.RwSize }

/-- The function `makeListPodContainers(containerID, batchInfo)`. -/
def makeListPodContainers (c : Collab) (containerID : String)
    (batchInfo : BatchContainerStruct) : ListPodContainerInfo :=
  { Id := containerID
    Status := c.StatusString batchInfo.ConState
    Name := batchInfo.ConConfig.Name }

/-- The loop of `makeListPod` over the member containers: `acc` is
`listPodsContainers` so far; the first failing query ends the loop with its
error. -/
def listPodsContainersLoop (c : Collab) (batchInfo : PsOptions) :
    List Container → List ListPodContainerInfo → Except GoError (List ListPodContainerInfo)
  | [], acc => Except.ok acc
  | ctr :: rest, acc =>
    match c.BatchContainerOp ctr batchInfo with
    | Except.error err => Except.error err
    | Except.ok info =>
      listPodsContainersLoop c batchInfo rest (acc ++ [makeListPodContainers c ctr.ID info])

/-- The function `makeListPod(pod, batchInfo)`: the returned record and the
returned error. -/
def makeListPod (c : Collab) (pod : Pod) (batchInfo : PsOptions) :
    ListPodData × Option GoError :=
  let errPodData : ListPodData := default
  match c.GetPodStatus pod with
  | Except.error err => (errPodData, some err)
  | Except.ok status =>
    match c.AllContainers pod with
    | Except.error err => (errPodData, some err)
    | Except.ok containers =>
      match listPodsContainersLoop c batchInfo containers [] with
      | Except.error err => (errPodData, some err)
      | Except.ok listPodsContainers =>
        ({ Createdat := c.FormatRFC3339 pod.CreatedTime
           Id := pod.ID
           Name := pod.Name
           Status := status
           Cgroup := pod.CgroupParent
           Numberofcontainers := Itoa listPodsContainers.length
           Containersinfo := listPodsContainers }, none)

/-! ## A concrete runtime -/

/-- A runtime with two pods: the pod with id `p0` has no member container, every
other pod has the members `c1` and `c2`; every query succeeds. -/
def sampleCollab : Collab where
  GetNamespaces := fun _ => ⟨"", "", "", "", "", "", "", ""⟩
  GetPodStatus := fun _ => Except.ok "Running"
  AllContainers := fun pod =>
    if pod.ID = "p0" then Except.ok [] else Except.ok [⟨"c1"⟩, ⟨"c2"⟩]
  BatchContainerOp := fun ctr _ =>
    Except.ok
      { ConConfig :=
          { Mounts := []
            Args := ["sleep", "60"]
            PortMappings := [⟨8080, 80, "tcp", ""⟩]
            RootfsImageName := "alpine"
            RootfsImageID := "img1"
            CreatedTime := ⟨0⟩
            Name := "name-" ++ ctr.ID
            Labels := [] }
        ConState := ⟨3⟩
        Pid := 42
        Size := none }
  StatusString := fun st => if st.code = 3 then "running" else "unknown"
  ContainerStateRunning := ⟨3⟩
  FormatRFC3339 := fun _ => "1970-01-01T00:00:00Z"
  SinceString := fun _ => "1h0m0s"

/-- The pod of `sampleCollab` without member containers. -/
def emptyPod : Pod := ⟨"p0", "empty", "machine.slice", ⟨0⟩⟩

/-- A pod of `sampleCollab` with two member containers. -/
def webPod : Pod := ⟨"p1", "web", "machine.slice", ⟨0⟩⟩

/-- The options `makePsOpts` returns for a wire object with every optional field
absent. -/
def sampleOpts : PsOptions :=
  makePsOpts ⟨false, none, none, none, none, none, none, none, none, none⟩

/-- A runtime with failing queries: the status query fails for the pod with id
`p8`, the enumeration fails for the pods with id `p8` and `p9`, and the
per-container query fails for the containers `bad2` and `bad3`.  The pod with id
`p3` has the members `c1`, `c2`, `bad3`; every other pod that can be enumerated
has the members `c1`, `bad2`, `bad3`. -/
def failingCollab : Collab where
  GetNamespaces := sampleCollab.GetNamespaces
  GetPodStatus := fun pod =>
    if pod.ID = "p8" then Except.error ⟨"no status for pod " ++ pod.ID⟩
    else Except.ok "Degraded"
  AllContainers := fun pod =>
    if pod.ID = "p8" ∨ pod.ID = "p9" then Except.error ⟨"cannot list pod " ++ pod.ID⟩
    else if pod.ID = "p3" then Except.ok [⟨"c1"⟩, ⟨"c2"⟩, ⟨"bad3"⟩]
    else Except.ok [⟨"c1"⟩, ⟨"bad2"⟩, ⟨"bad3"⟩]
  BatchContainerOp := fun ctr opts =>
    if ctr.ID = "bad2" ∨ ctr.ID = "bad3" then Except.error ⟨"no such container " ++ ctr.ID⟩
    else sampleCollab.BatchContainerOp ctr opts
  StatusString := sampleCollab.StatusString
  ContainerStateRunning := sampleCollab.ContainerStateRunning
  FormatRFC3339 := sampleCollab.FormatRFC3339
  SinceString := sampleCollab.SinceString

/-- A pod of `failingCollab` whose third member cannot be queried. -/
def thirdFailsPod : Pod := ⟨"p3", "third", "machine.slice", ⟨0⟩⟩

/-- A pod of `failingCollab` whose second and third members cannot be queried. -/
def twoFailPod : Pod := ⟨"p4", "two", "machine.slice", ⟨0⟩⟩

/-- A pod of `failingCollab` whose status query fails. -/
def noStatusPod : Pod := ⟨"p8", "nostatus", "machine.slice", ⟨0⟩⟩

/-- A pod of `failingCollab` whose enumeration fails. -/
def noListPod : Pod := ⟨"p9", "nolist", "machine.slice", ⟨0⟩⟩

/-- A state bundle of a running container with one port mapping (host port
8080 to container port 80), two mounts and no size data. -/
def sampleBundle : BatchContainerStruct where
  ConConfig :=
    { Mounts :=
        [⟨"/proc", "proc", "proc", ["nosuid", "noexec"]⟩,
          ⟨"/data", "bind", "/srv/data", ["rw"]⟩]
      Args := ["nginx"]
      PortMappings := [⟨8080, 80, "tcp", "0.0.0.0"⟩]
      RootfsImageName := "nginx"
      RootfsImageID := "img2"
      CreatedTime := ⟨0⟩
      Name := "web1"
      Labels := [("tier", "front")] }
  ConState := ⟨3⟩
  Pid := 77
  Size := none

/-- The bundle `sampleBundle` carrying explicit zero sizes. -/
def zeroSizeBundle : BatchContainerStruct :=
  { sampleBundle with Size := some ⟨0, 0⟩ }

/-- The bundle `sampleBundle` carrying the sizes 1024 and 512. -/
def sizedBundle : BatchContainerStruct :=
  { sampleBundle with Size := some ⟨1024, 512⟩ }

/-- The bundle `sampleBundle` in another run-state than the running one. -/
def stoppedBundle : BatchContainerStruct :=
  { sampleBundle with ConState := ⟨4⟩ }

/-! ## Properties of handlePodCall -/

/-- The appends of `handlePodCall` land behind the pre-sized prefix. -/
theorem foldl_append_entries (m : ErrMap) (init : List PodContainerErrorData) :
    m.foldl (fun acc entry => acc ++ [PodContainerErrorData.mk entry.1 entry.2.Error]) init
      = init ++ m.map (fun entry => PodContainerErrorData.mk entry.1 entry.2.Error) := by
  induction m generalizing init with
  | nil => simp
  | cons x xs ih => simp [List.foldl_cons, ih]

/-- Shape of the slice built by `handlePodCall`. -/
theorem containerErrs_eq (m : ErrMap) :
    containerErrs m
      = List.replicate m.length default
        ++ m.map (fun entry => PodContainerErrorData.mk entry.1 entry.2.Error) := by
  unfold containerErrs
  exact foldl_append_entries m _

/-- C1: whenever `ctrErrs` is a non-nil map (also one with zero entries), for
every pod and every `err`, nil or not, `handlePodCall` emits exactly one reply,
a `ReplyPodContainerError` keyed to `pod.ID()`, never a `ReplyErrorOccurred`,
and its whole effect equals the effect with `err = nil`. -/
theorem handlePodCall_partial_precedence (call : VarlinkCall) (pod : Pod) (m : ErrMap)
    (err : Option GoError) :
    (handlePodCall call pod (some m) err).sent
        = [Reply.PodContainerError pod.ID (containerErrs m)]
    ∧ (∀ reason, Reply.ErrorOccurred reason ∉ (handlePodCall call pod (some m) err).sent)
    ∧ handlePodCall call pod (some m) err = handlePodCall call pod (some m) none
    ∧ (handlePodCall call pod (some []) err).sent = [Reply.PodContainerError pod.ID []] := by
  cases err <;> simp [handlePodCall, VarlinkCall.ReplyPodContainerError, containerErrs]

/-- C2: with a non-nil `err` and a nil `ctrErrs`, `handlePodCall` emits exactly
one reply, `ReplyErrorOccurred` with the string `err.Error()` unchanged, returns
what that reply method returns, emits no `ReplyPodContainerError`, and its
effect is the same for every pod argument. -/
theorem handlePodCall_fatal (call : VarlinkCall) (pod : Pod) (e : GoError) :
    (handlePodCall call pod none (some e)).sent = [Reply.ErrorOccurred e.Error]
    ∧ (handlePodCall call pod none (some e)).ret = call.transport (Reply.ErrorOccurred e.Error)
    ∧ (∀ podname errors,
        Reply.PodContainerError podname errors ∉ (handlePodCall call pod none (some e)).sent)
    ∧ (∀ other : Pod,
        handlePodCall call other none (some e) = handlePodCall call pod none (some e)) := by
  simp [handlePodCall, VarlinkCall.ReplyErrorOccurred]

/-- C3: `handlePodCall` emits no reply and returns nil exactly when both `err`
and `ctrErrs` are nil; in every other case it emits exactly one reply; and of
the three outcomes (silent, fatal, partial) exactly one occurs. -/
theorem handlePodCall_three_outcomes (call : VarlinkCall) (pod : Pod)
    (ctrErrs : Option ErrMap) (err : Option GoError) :
    (((handlePodCall call pod ctrErrs err).sent = []
        ∧ (handlePodCall call pod ctrErrs err).ret = none)
      ↔ (err = none ∧ ctrErrs = none))
    ∧ ((err = none ∧ ctrErrs = none) ∨ (handlePodCall call pod ctrErrs err).sent.length = 1)
    ∧ (((handlePodCall call pod ctrErrs err).sent = [] ↔ (err = none ∧ ctrErrs = none))
      ∧ ((∃ reason, (handlePodCall call pod ctrErrs err).sent = [Reply.ErrorOccurred reason])
          ↔ (err ≠ none ∧ ctrErrs = none))
      ∧ ((∃ podname errors,
            (handlePodCall call pod ctrErrs err).sent = [Reply.PodContainerError podname errors])
          ↔ ctrErrs ≠ none)) := by
  cases err <;> cases ctrErrs <;>
    simp [handlePodCall, VarlinkCall.ReplyErrorOccurred, VarlinkCall.ReplyPodContainerError]

/-- C4: on the one-entry map `{"c1": boom}` the list handed to
`ReplyPodContainerError` has two elements, a zero-valued entry followed by the
real pair, instead of the single pair of the map. -/
theorem handlePodCall_one_entry_list :
    (handlePodCall ⟨fun _ => none⟩ ⟨"p1", "pod", "", ⟨0⟩⟩ (some [("c1", ⟨"boom"⟩)]) none).sent
        = [Reply.PodContainerError "p1" [⟨"", ""⟩, ⟨"c1", "boom"⟩]]
    ∧ (containerErrs [("c1", ⟨"boom"⟩)]).length = 2 := by
  decide

/-! ## Properties of the case conversion -/

/-- On the ASCII range lower-casing does not leave the range and does not change
the upper-case form. -/
theorem ascii_lower_upper :
    ∀ n < 128, ((Char.ofNat n).toLower.val ≤ 127
      ∧ (Char.ofNat n).toLower.toUpper = (Char.ofNat n).toUpper) := by
  decide

/-- On the ASCII range upper-casing does not leave the range and is idempotent. -/
theorem ascii_upper_upper :
    ∀ n < 128, ((Char.ofNat n).toUpper.val ≤ 127
      ∧ (Char.ofNat n).toUpper.toUpper = (Char.ofNat n).toUpper) := by
  decide

/-- The code of an ASCII rune is below 128. -/
theorem toNat_lt_of_ascii (c : Char) (h : c.val ≤ 127) : c.toNat < 128 := by
  have : c.val.toNat ≤ 127 := h
  unfold Char.toNat
  omega

/-- For an ASCII rune, upper-casing twice is upper-casing once. -/
theorem unicodeToUpper_unicodeToUpper_ascii (tbl : CaseTable) (c : Char) (h : c.val ≤ 127) :
    unicodeToUpper tbl (unicodeToUpper tbl c) = unicodeToUpper tbl c := by
  have hc := ascii_upper_upper c.toNat (toNat_lt_of_ascii c h)
  rw [Char.ofNat_toNat] at hc
  simp only [unicodeToUpper, h, hc.1, hc.2, ↓reduceIte]

/-- For an ASCII rune, upper-casing its lower-case form is upper-casing it. -/
theorem unicodeToUpper_unicodeToLower_ascii (tbl : CaseTable) (c : Char) (h : c.val ≤ 127) :
    unicodeToUpper tbl (unicodeToLower tbl c) = unicodeToUpper tbl c := by
  have hc := ascii_lower_upper c.toNat (toNat_lt_of_ascii c h)
  rw [Char.ofNat_toNat] at hc
  simp only [unicodeToUpper, unicodeToLower, h, hc.1, hc.2, ↓reduceIte]

/-- Upper-casing twice: the runes of `s` decide. -/
theorem ToUpper_ToUpper (tbl : CaseTable) (s : String)
    (h : ∀ c ∈ s.data, unicodeToUpper tbl (unicodeToUpper tbl c) = unicodeToUpper tbl c) :
    ToUpper tbl (ToUpper tbl s) = ToUpper tbl s := by
  simp only [ToUpper, List.map_map]
  congr 1
  exact List.map_congr_left (fun c hc => h c hc)

/-- Upper-casing the lower-cased string: the runes of `s` decide. -/
theorem ToUpper_ToLower (tbl : CaseTable) (s : String)
    (h : ∀ c ∈ s.data, unicodeToUpper tbl (unicodeToLower tbl c) = unicodeToUpper tbl c) :
    ToUpper tbl (ToLower tbl s) = ToUpper tbl s := by
  simp only [ToUpper, ToLower, List.map_map]
  congr 1
  exact List.map_congr_left (fun c hc => h c hc)

/-! ## Properties of the enumeration parsers -/

/-- C5, the claim as stated fails: with the entry of Go's case table for U+0130
(lower-case form `i`, no upper-case form of its own), the string `GZİP` maps to
`Uncompressed` while its lower-cased form `gzip` maps to `Gzip`. -/
theorem stringCompressionToArchiveType_lower_differs :
    ToLower asciiCaseRanges "GZİP" = "gzip"
    ∧ ToUpper asciiCaseRanges "GZİP" = "GZİP"
    ∧ stringCompressionToArchiveType asciiCaseRanges "GZİP" = Compression.Uncompressed
    ∧ stringCompressionToArchiveType asciiCaseRanges (ToLower asciiCaseRanges "GZİP")
        = Compression.Gzip := by
  decide

/-- C5, amended: for every case table and every string `s`,
`stringCompressionToArchiveType` returns `Bzip2` exactly when the upper-cased
`s` is `BZIP2`, `Gzip` exactly when it is `GZIP`, `Xz` exactly when it is `XZ`,
and `Uncompressed` for every other input, among them the empty string and
`unknown`; `gzip`, `GZIP` and `GzIp` all give `Gzip`; the result for the
upper-cased form of `s` is the result for `s` when upper-casing a rune of `s`
twice is the same as once; and the result for the lower-cased form of `s` is the
result for `s` when every rune of `s` has the same upper-case form as its
lower-case form, which is so for every ASCII string. -/
theorem stringCompressionToArchiveType_spec (tbl : CaseTable) (s : String) :
    (stringCompressionToArchiveType tbl s = Compression.Bzip2 ↔ ToUpper tbl s = "BZIP2")
    ∧ (stringCompressionToArchiveType tbl s = Compression.Gzip ↔ ToUpper tbl s = "GZIP")
    ∧ (stringCompressionToArchiveType tbl s = Compression.Xz ↔ ToUpper tbl s = "XZ")
    ∧ (stringCompressionToArchiveType tbl s = Compression.Uncompressed
        ↔ (ToUpper tbl s ≠ "BZIP2" ∧ ToUpper tbl s ≠ "GZIP" ∧ ToUpper tbl s ≠ "XZ"))
    ∧ stringCompressionToArchiveType tbl "" = Compression.Uncompressed
    ∧ stringCompressionToArchiveType tbl "unknown" = Compression.Uncompressed
    ∧ stringCompressionToArchiveType tbl "gzip" = Compression.Gzip
    ∧ stringCompressionToArchiveType tbl "GZIP" = Compression.Gzip
    ∧ stringCompressionToArchiveType tbl "GzIp" = Compression.Gzip
    ∧ ((∀ c ∈ s.data, unicodeToUpper tbl (unicodeToUpper tbl c) = unicodeToUpper tbl c) →
        stringCompressionToArchiveType tbl (ToUpper tbl s)
          = stringCompressionToArchiveType tbl s)
    ∧ ((∀ c ∈ s.data, unicodeToUpper tbl (unicodeToLower tbl c) = unicodeToUpper tbl c) →
        stringCompressionToArchiveType tbl (ToLower tbl s)
          = stringCompressionToArchiveType tbl s)
    ∧ (isASCII s = true →
        stringCompressionToArchiveType tbl (ToUpper tbl s)
            = stringCompressionToArchiveType tbl s
        ∧ stringCompressionToArchiveType tbl (ToLower tbl s)
            = stringCompressionToArchiveType tbl s) := by
  refine ⟨?_, ?_, ?_, ?_, rfl, rfl, rfl, rfl, rfl, ?_, ?_, ?_⟩
  · unfold stringCompressionToArchiveType
    split_ifs with h1 h2 h3 <;> simp_all
  · unfold stringCompressionToArchiveType
    split_ifs with h1 h2 h3 <;> simp_all
  · unfold stringCompressionToArchiveType
    split_ifs with h1 h2 h3 <;> simp_all
  · unfold stringCompressionToArchiveType
    split_ifs with h1 h2 h3 <;> simp_all
  · intro h
    simp only [stringCompressionToArchiveType, ToUpper_ToUpper tbl s h]
  · intro h
    simp only [stringCompressionToArchiveType, ToUpper_ToLower tbl s h]
  · intro h
    have hall : ∀ c ∈ s.data, c.val ≤ 127 := by
      simpa [isASCII, List.all_eq_true] using h
    have hup : ToUpper tbl (ToUpper tbl s) = ToUpper tbl s :=
      ToUpper_ToUpper tbl s
        (fun c hc => unicodeToUpper_unicodeToUpper_ascii tbl c (hall c hc))
    have hlow : ToUpper tbl (ToLower tbl s) = ToUpper tbl s :=
      ToUpper_ToLower tbl s
        (fun c hc => unicodeToUpper_unicodeToLower_ascii tbl c (hall c hc))
    simp only [stringCompressionToArchiveType, hup, hlow, and_self]

/-- C5, amended, at a concrete input: `GzIp` is ASCII, so its upper-cased and
its lower-cased form give the same result as `GzIp` itself, namely `Gzip`. -/
theorem stringCompressionToArchiveType_spec_witness :
    isASCII "GzIp" = true
    ∧ stringCompressionToArchiveType asciiCaseRanges (ToUpper asciiCaseRanges "GzIp")
        = stringCompressionToArchiveType asciiCaseRanges "GzIp"
    ∧ stringCompressionToArchiveType asciiCaseRanges (ToLower asciiCaseRanges "GzIp")
        = stringCompressionToArchiveType asciiCaseRanges "GzIp"
    ∧ stringCompressionToArchiveType asciiCaseRanges "GzIp" = Compression.Gzip :=
  ⟨by decide,
    ((stringCompressionToArchiveType_spec asciiCaseRanges "GzIp").2.2.2.2.2.2.2.2.2.2.2
      (by decide)).1,
    ((stringCompressionToArchiveType_spec asciiCaseRanges "GzIp").2.2.2.2.2.2.2.2.2.2.2
      (by decide)).2,
    (stringCompressionToArchiveType_spec asciiCaseRanges "GzIp").2.2.2.2.2.2.2.2.1⟩

/-- On an ASCII string `strings.ToUpper` is the letter-by-letter upper-casing,
whatever the case table holds. -/
theorem ToUpper_of_isASCII (tbl : CaseTable) (s : String) (h : isASCII s = true) :
    ToUpper tbl s = upperASCII s := by
  have hall : ∀ c ∈ s.data, c.val ≤ 127 := by
    simpa [isASCII, List.all_eq_true] using h
  simp only [ToUpper, upperASCII]
  congr 1
  exact List.map_congr_left (fun c hc => by simp only [unicodeToUpper, hall c hc, ↓reduceIte])

/-- C6: for every case table and every string `s`, `stringPullPolicyToType`
returns `PullAlways` exactly when the upper-cased `s` is `PULLALWAYS`,
`PullNever` exactly when it is `PULLNEVER`, and `PullIfMissing` for every other
input; `PULLNEVER` gives `PullNever`; an `s` whose upper-cased form is none of
the three names gives the same result as the explicit name `PullIfMissing`,
which is `PullIfMissing`.  The match ignores case: `pullnever` and `PullNever`
give `PullNever`, `pullalways`, `PullAlways` and `PULLALWAYS` give `PullAlways`,
`pullifmissing` and the empty string give `PullIfMissing`; two strings with the
same upper-cased form give the same result; the upper-cased (lower-cased) form
of `s` gives the result of `s` when upper-casing a rune of `s` twice (its
lower-case form) is the same as upper-casing it once; and for every ASCII `s`
the result is `PullAlways` (`PullNever`) exactly when `s` with its letters `a`
to `z` replaced by `A` to `Z` is `PULLALWAYS` (`PULLNEVER`), and the result is
the same for `s`, its upper-cased form and its lower-cased form. -/
theorem stringPullPolicyToType_spec (tbl : CaseTable) (s : String) :
    (stringPullPolicyToType tbl s = PullPolicy.PullAlways ↔ ToUpper tbl s = "PULLALWAYS")
    ∧ (stringPullPolicyToType tbl s = PullPolicy.PullNever ↔ ToUpper tbl s = "PULLNEVER")
    ∧ (stringPullPolicyToType tbl s = PullPolicy.PullIfMissing
        ↔ (ToUpper tbl s ≠ "PULLALWAYS" ∧ ToUpper tbl s ≠ "PULLNEVER"))
    ∧ stringPullPolicyToType tbl "PULLNEVER" = PullPolicy.PullNever
    ∧ stringPullPolicyToType tbl "PullIfMissing" = PullPolicy.PullIfMissing
    ∧ ((ToUpper tbl s ≠ "PULLIFMISSING" ∧ ToUpper tbl s ≠ "PULLALWAYS"
          ∧ ToUpper tbl s ≠ "PULLNEVER") →
        stringPullPolicyToType tbl s = stringPullPolicyToType tbl "PullIfMissing")
    ∧ (stringPullPolicyToType tbl "pullnever" = PullPolicy.PullNever
        ∧ stringPullPolicyToType tbl "PullNever" = PullPolicy.PullNever
        ∧ stringPullPolicyToType tbl "pullalways" = PullPolicy.PullAlways
        ∧ stringPullPolicyToType tbl "PullAlways" = PullPolicy.PullAlways
        ∧ stringPullPolicyToType tbl "PULLALWAYS" = PullPolicy.PullAlways
        ∧ stringPullPolicyToType tbl "pullifmissing" = PullPolicy.PullIfMissing
        ∧ stringPullPolicyToType tbl "" = PullPolicy.PullIfMissing)
    ∧ (∀ t : String, ToUpper tbl t = ToUpper tbl s →
        stringPullPolicyToType tbl t = stringPullPolicyToType tbl s)
    ∧ ((∀ c ∈ s.data, unicodeToUpper tbl (unicodeToUpper tbl c) = unicodeToUpper tbl c) →
        stringPullPolicyToType tbl (ToUpper tbl s) = stringPullPolicyToType tbl s)
    ∧ ((∀ c ∈ s.data, unicodeToUpper tbl (unicodeToLower tbl c) = unicodeToUpper tbl c) →
        stringPullPolicyToType tbl (ToLower tbl s) = stringPullPolicyToType tbl s)
    ∧ (isASCII s = true →
        (stringPullPolicyToType tbl s = PullPolicy.PullAlways ↔ upperASCII s = "PULLALWAYS")
        ∧ (stringPullPolicyToType tbl s = PullPolicy.PullNever ↔ upperASCII s = "PULLNEVER")
        ∧ stringPullPolicyToType tbl (ToUpper tbl s) = stringPullPolicyToType tbl s
        ∧ stringPullPolicyToType tbl (ToLower tbl s) = stringPullPolicyToType tbl s) := by
  have hAlways : stringPullPolicyToType tbl s = PullPolicy.PullAlways
      ↔ ToUpper tbl s = "PULLALWAYS" := by
    unfold stringPullPolicyToType
    split_ifs with h1 h2 h3 <;> simp_all
  have hNever : stringPullPolicyToType tbl s = PullPolicy.PullNever
      ↔ ToUpper tbl s = "PULLNEVER" := by
    unfold stringPullPolicyToType
    split_ifs with h1 h2 h3 <;> simp_all
  refine ⟨hAlways, hNever, ?_, rfl, rfl, ?_, ⟨rfl, rfl, rfl, rfl, rfl, rfl, rfl⟩,
    ?_, ?_, ?_, ?_⟩
  · unfold stringPullPolicyToType
    split_ifs with h1 h2 h3 <;> simp_all
  · rintro ⟨h1, h2, h3⟩
    have hdef : stringPullPolicyToType tbl "PullIfMissing" = PullPolicy.PullIfMissing := rfl
    rw [hdef]
    simp only [stringPullPolicyToType, h1, h2, h3, ↓reduceIte]
  · intro t ht
    simp only [stringPullPolicyToType, ht]
  · intro h
    simp only [stringPullPolicyToType, ToUpper_ToUpper tbl s h]
  · intro h
    simp only [stringPullPolicyToType, ToUpper_ToLower tbl s h]
  · intro h
    have hall : ∀ c ∈ s.data, c.val ≤ 127 := by
      simpa [isASCII, List.all_eq_true] using h
    have hup : ToUpper tbl (ToUpper tbl s) = ToUpper tbl s :=
      ToUpper_ToUpper tbl s
        (fun c hc => unicodeToUpper_unicodeToUpper_ascii tbl c (hall c hc))
    have hlow : ToUpper tbl (ToLower tbl s) = ToUpper tbl s :=
      ToUpper_ToLower tbl s
        (fun c hc => unicodeToUpper_unicodeToLower_ascii tbl c (hall c hc))
    have hascii := ToUpper_of_isASCII tbl s h
    refine ⟨?_, ?_, ?_, ?_⟩
    · rw [hAlways, hascii]
    · rw [hNever, hascii]
    · simp only [stringPullPolicyToType, hup]
    · simp only [stringPullPolicyToType, hlow]

/-- C6 at concrete inputs: the unrecognized strings `sometimes` and the empty
string give the result of the explicit name `PullIfMissing`; the ASCII string
`PullNever`, its upper-cased form and its lower-cased form all give
`PullNever`. -/
theorem stringPullPolicyToType_spec_witness :
    stringPullPolicyToType asciiCaseRanges "sometimes"
        = stringPullPolicyToType asciiCaseRanges "PullIfMissing"
    ∧ stringPullPolicyToType asciiCaseRanges ""
        = stringPullPolicyToType asciiCaseRanges "PullIfMissing"
    ∧ isASCII "PullNever" = true
    ∧ stringPullPolicyToType asciiCaseRanges "PullNever" = PullPolicy.PullNever
    ∧ stringPullPolicyToType asciiCaseRanges (ToUpper asciiCaseRanges "PullNever")
        = stringPullPolicyToType asciiCaseRanges "PullNever"
    ∧ stringPullPolicyToType asciiCaseRanges (ToLower asciiCaseRanges "PullNever")
        = stringPullPolicyToType asciiCaseRanges "PullNever" :=
  ⟨(stringPullPolicyToType_spec asciiCaseRanges "sometimes").2.2.2.2.2.1 (by decide),
    (stringPullPolicyToType_spec asciiCaseRanges "").2.2.2.2.2.1 (by decide),
    by decide,
    ((stringPullPolicyToType_spec asciiCaseRanges "PullNever").2.2.2.2.2.2.2.2.2.2
      (by decide)).2.1.mpr (by decide),
    ((stringPullPolicyToType_spec asciiCaseRanges "PullNever").2.2.2.2.2.2.2.2.2.2
      (by decide)).2.2.1,
    ((stringPullPolicyToType_spec asciiCaseRanges "PullNever").2.2.2.2.2.2.2.2.2.2
      (by decide)).2.2.2⟩

/-! ## Properties of the optional values and of makePsOpts -/

/-- On a 64-bit `int` the conversion of an `int64` keeps the value. -/
theorem toInt_eq (x : Int64) : toInt x = x.val := by
  have h := x.inRange
  simp only [toInt, intSize]
  norm_num
  omega

/-- C7: for every wire option object, whatever its `Size` field and its other
fields hold, `makePsOpts` returns options with `Size` and `Namespace` set. -/
theorem makePsOpts_forces_size_namespace (inOpts : PsOpts) :
    (makePsOpts inOpts).Size = true ∧ (makePsOpts inOpts).Namespace = true
    ∧ (∀ size : Option Bool,
        (makePsOpts { inOpts with Size := size }).Size = true
        ∧ (makePsOpts { inOpts with Size := size }).Namespace = true) :=
  ⟨rfl, rfl, fun _ => ⟨rfl, rfl⟩⟩

/-- C8: for every wire option object, `Last` is 0 when the wire field is absent
and the supplied integer otherwise; `Latest`, `NoTrunc`, `Pod` and `Sync` are
false when absent and the pointed-to value otherwise; `Sort` is the empty string
when absent and the pointed-to string otherwise; `All` is copied. -/
theorem makePsOpts_defaults (inOpts : PsOpts) :
    (makePsOpts inOpts).Last = (match inOpts.Last with
        | none => 0
        | some v => v.val)
    ∧ (makePsOpts inOpts).Latest = (match inOpts.Latest with
        | none => false
        | some b => b)
    ∧ (makePsOpts inOpts).NoTrunc = (match inOpts.NoTrunc with
        | none => false
        | some b => b)
    ∧ (makePsOpts inOpts).Pod = (match inOpts.Pod with
        | none => false
        | some b => b)
    ∧ (makePsOpts inOpts).Sync = (match inOpts.Sync with
        | none => false
        | some b => b)
    ∧ (makePsOpts inOpts).Sort_ = (match inOpts.Sort_ with
        | none => ""
        | some str => str)
    ∧ (makePsOpts inOpts).All = inOpts.All := by
  refine ⟨?_, rfl, rfl, rfl, rfl, rfl, rfl⟩
  cases h : inOpts.Last with
  | none => simp [makePsOpts, h]
  | some v => simp [makePsOpts, h, toInt_eq]

/-- C9: `derefBool` and `derefString` return the default on the nil pointer and
the pointed-to value otherwise. -/
theorem deref_spec :
    derefBool none = false ∧ (∀ b : Bool, derefBool (some b) = b)
    ∧ derefString none = "" ∧ (∀ s : String, derefString (some s) = s) :=
  ⟨rfl, fun _ => rfl, rfl, fun _ => rfl⟩

/-! ## Decimal numerals: reading back what `Itoa` writes -/

/-- A digit character has its digit as value. -/
theorem digitValue_digitChar (k : Nat) (h : k < 10) :
    digitValue (Nat.digitChar k) = some k := by
  interval_cases k <;> rfl

/-- Reading a concatenation reads the first part, then the second. -/
theorem parseDigits_append (a b : List Char) (acc : Nat) :
    parseDigits (a ++ b) acc = (parseDigits a acc).bind (fun x => parseDigits b x) := by
  induction a generalizing acc with
  | nil => simp [parseDigits]
  | cons c cs ih =>
    simp only [List.cons_append, parseDigits]
    cases digitValue c with
    | none => simp
    | some d => simpa using ih (acc * 10 + d)

/-- The digits are written in front of the digits already there. -/
theorem toDigitsCore_append (fuel n : Nat) (ds : List Char) :
    Nat.toDigitsCore 10 fuel n ds = Nat.toDigitsCore 10 fuel n [] ++ ds := by
  induction fuel generalizing n ds with
  | zero => simp [Nat.toDigitsCore]
  | succ fuel ih =>
    simp only [Nat.toDigitsCore]
    split_ifs with h
    · simp
    · rw [ih (n / 10) (Nat.digitChar (n % 10) :: ds), ih (n / 10) [Nat.digitChar (n % 10)]]
      simp

/-- With enough fuel the digits written for `n` read back as `n`. -/
theorem parseDigits_toDigitsCore (fuel n : Nat) (h : n < fuel) :
    parseDigits (Nat.toDigitsCore 10 fuel n []) 0 = some n := by
  induction fuel generalizing n with
  | zero => omega
  | succ fuel ih =>
    simp only [Nat.toDigitsCore]
    split_ifs with h0
    · have hlt : n % 10 < 10 := Nat.mod_lt _ (by decide)
      simp only [parseDigits, digitValue_digitChar _ hlt]
      congr 1
      omega
    · have hlt : n % 10 < 10 := Nat.mod_lt _ (by decide)
      have hfuel : n / 10 < fuel := by omega
      rw [toDigitsCore_append, parseDigits_append, ih (n / 10) hfuel]
      simp only [Option.bind, parseDigits, digitValue_digitChar _ hlt]
      congr 1
      omega

/-- The numeral of a natural number reads back as that number. -/
theorem parseDigits_toDigits (n : Nat) : parseDigits (Nat.toDigits 10 n) 0 = some n :=
  parseDigits_toDigitsCore (n + 1) n (Nat.lt_succ_self n)

/-- The numeral of a natural number has at least one character. -/
theorem toDigits_ne_nil (n : Nat) : Nat.toDigits 10 n ≠ [] := by
  simp only [Nat.toDigits, Nat.toDigitsCore]
  split_ifs with h
  · simp
  · rw [toDigitsCore_append]
    simp

/-- An unsigned numeral is read by `parseDecimal` as the number it denotes. -/
theorem parseDecimal_repr (n : Nat) : parseDecimal (Nat.repr n) = some (n : Int) := by
  have hparse := parseDigits_toDigits n
  have hne := toDigits_ne_nil n
  simp only [parseDecimal, Nat.repr, List.asString]
  cases hds : Nat.toDigits 10 n with
  | nil => exact absurd hds hne
  | cons c cs =>
    rw [hds] at hparse
    have hminus : c ≠ '-' := by
      intro hc
      subst hc
      simp [parseDigits, digitValue] at hparse
    have hplus : c ≠ '+' := by
      intro hc
      subst hc
      simp [parseDigits, digitValue] at hparse
    simp [hminus, hplus, hparse]

/-- Reading back what `Itoa` writes gives the integer written. -/
theorem parseDecimal_Itoa (i : Int) : parseDecimal (Itoa i) = some i := by
  cases i with
  | ofNat n => exact parseDecimal_repr n
  | negSucc n =>
    have hparse := parseDigits_toDigits (n + 1)
    have hne := toDigits_ne_nil (n + 1)
    simp only [Itoa, parseDecimal, Nat.repr, List.asString, String.data_append]
    cases hds : Nat.toDigits 10 (n + 1) with
    | nil => exact absurd hds hne
    | cons c cs =>
      rw [hds] at hparse
      simp [hparse, Int.negSucc_eq]

/-! ## Properties of makeListPod -/

/-- Shape of a successful `makeListPod`: the status query, the enumeration and
the loop over the members all succeeded, and the record is built from their
results. -/
theorem makeListPod_success (c : Collab) (pod : Pod) (batchInfo : PsOptions)
    (h : (makeListPod c pod batchInfo).2 = none) :
    ∃ status containers infos,
      c.GetPodStatus pod = Except.ok status
      ∧ c.AllContainers pod = Except.ok containers
      ∧ listPodsContainersLoop c batchInfo containers [] = Except.ok infos
      ∧ (makeListPod c pod batchInfo).1 =
          { Createdat := c.FormatRFC3339 pod.CreatedTime
            Id := pod.ID
            Name := pod.Name
            Status := status
            Cgroup := pod.CgroupParent
            Numberofcontainers := Itoa infos.length
            Containersinfo := infos } := by
  cases hs : c.GetPodStatus pod with
  | error e => simp [makeListPod, hs] at h
  | ok status =>
    cases hc : c.AllContainers pod with
    | error e => simp [makeListPod, hs, hc] at h
    | ok containers =>
      cases hl : listPodsContainersLoop c batchInfo containers [] with
      | error e => simp [makeListPod, hs, hc, hl] at h
      | ok infos =>
        refine ⟨status, containers, infos, rfl, rfl, hl, ?_⟩
        simp only [makeListPod, hs, hc, hl]

/-- C10: whenever `makeListPod` succeeds, `Numberofcontainers` is the decimal
string of the length of `Containersinfo`, and reading it back as an integer
gives exactly that length. -/
theorem makeListPod_count (c : Collab) (pod : Pod) (batchInfo : PsOptions)
    (h : (makeListPod c pod batchInfo).2 = none) :
    (makeListPod c pod batchInfo).1.Numberofcontainers
        = Itoa (makeListPod c pod batchInfo).1.Containersinfo.length
    ∧ parseDecimal (makeListPod c pod batchInfo).1.Numberofcontainers
        = some ((makeListPod c pod batchInfo).1.Containersinfo.length : Int) := by
  obtain ⟨status, containers, infos, -, -, -, hres⟩ := makeListPod_success c pod batchInfo h
  rw [hres]
  exact ⟨rfl, parseDecimal_Itoa _⟩

/-- C10 at concrete inputs: on a pod without members `makeListPod` succeeds with
`Numberofcontainers = "0"` and an empty `Containersinfo`; on a pod with two
members it succeeds with `Numberofcontainers = "2"` and two entries. -/
theorem makeListPod_count_witness :
    ((makeListPod sampleCollab emptyPod sampleOpts).2 = none
      ∧ ((makeListPod sampleCollab emptyPod sampleOpts).1.Numberofcontainers
            = Itoa (makeListPod sampleCollab emptyPod sampleOpts).1.Containersinfo.length
          ∧ parseDecimal (makeListPod sampleCollab emptyPod sampleOpts).1.Numberofcontainers
            = some ((makeListPod sampleCollab emptyPod sampleOpts).1.Containersinfo.length : Int))
      ∧ (makeListPod sampleCollab emptyPod sampleOpts).1.Numberofcontainers = "0"
      ∧ (makeListPod sampleCollab emptyPod sampleOpts).1.Containersinfo = [])
    ∧ ((makeListPod sampleCollab webPod sampleOpts).2 = none
      ∧ ((makeListPod sampleCollab webPod sampleOpts).1.Numberofcontainers
            = Itoa (makeListPod sampleCollab webPod sampleOpts).1.Containersinfo.length
          ∧ parseDecimal (makeListPod sampleCollab webPod sampleOpts).1.Numberofcontainers
            = some ((makeListPod sampleCollab webPod sampleOpts).1.Containersinfo.length : Int))
      ∧ (makeListPod sampleCollab webPod sampleOpts).1.Numberofcontainers = "2"
      ∧ (makeListPod sampleCollab webPod sampleOpts).1.Containersinfo.length = 2) :=
  ⟨⟨by decide, makeListPod_count sampleCollab emptyPod sampleOpts (by decide),
      by decide, by decide⟩,
    ⟨by decide, makeListPod_count sampleCollab webPod sampleOpts (by decide),
      by decide, by decide⟩⟩

/-! ## The loop of makeListPod -/

/-- A successful loop appends to `acc` one projection per member, in order,
each built from the successful query of that member. -/
theorem listPodsContainersLoop_ok (c : Collab) (batchInfo : PsOptions)
    (ctrs : List Container) (acc infos : List ListPodContainerInfo)
    (h : listPodsContainersLoop c batchInfo ctrs acc = Except.ok infos) :
    ∃ tail, infos = acc ++ tail
      ∧ List.Forall₂
          (fun ctr info => ∃ b, c.BatchContainerOp ctr batchInfo = Except.ok b
            ∧ info = makeListPodContainers c ctr.ID b)
          ctrs tail := by
  induction ctrs generalizing acc with
  | nil =>
    simp only [listPodsContainersLoop, Except.ok.injEq] at h
    exact ⟨[], by simp [h], List.Forall₂.nil⟩
  | cons ctr rest ih =>
    simp only [listPodsContainersLoop] at h
    cases hq : c.BatchContainerOp ctr batchInfo with
    | error e => simp [hq] at h
    | ok b =>
      simp only [hq] at h
      obtain ⟨tail, htail, hall⟩ := ih _ h
      refine ⟨makeListPodContainers c ctr.ID b :: tail, ?_, ?_⟩
      · simpa using htail
      · exact List.Forall₂.cons ⟨b, hq, rfl⟩ hall

/-- The loop stops at the first member whose query fails, with that error. -/
theorem listPodsContainersLoop_first_failure (c : Collab) (batchInfo : PsOptions)
    (pre : List Container) (ctr : Container) (post : List Container) (e : GoError)
    (acc : List ListPodContainerInfo)
    (hpre : ∀ x ∈ pre, ∃ b, c.BatchContainerOp x batchInfo = Except.ok b)
    (hfail : c.BatchContainerOp ctr batchInfo = Except.error e) :
    listPodsContainersLoop c batchInfo (pre ++ ctr :: post) acc = Except.error e := by
  induction pre generalizing acc with
  | nil => simp [listPodsContainersLoop, hfail]
  | cons x xs ih =>
    obtain ⟨b, hb⟩ := hpre x (List.mem_cons_self x xs)
    simp only [List.cons_append, listPodsContainersLoop, hb]
    exact ih _ (fun y hy => hpre y (List.mem_cons_of_mem x hy))

/-- When the query of some member fails, there is a first such member. -/
theorem exists_first_failure (c : Collab) (batchInfo : PsOptions) (ctrs : List Container)
    (h : ∃ x ∈ ctrs, ∃ e, c.BatchContainerOp x batchInfo = Except.error e) :
    ∃ pre ctr post e, ctrs = pre ++ ctr :: post
      ∧ (∀ x ∈ pre, ∃ b, c.BatchContainerOp x batchInfo = Except.ok b)
      ∧ c.BatchContainerOp ctr batchInfo = Except.error e := by
  induction ctrs with
  | nil =>
    obtain ⟨x, hx, -⟩ := h
    exact absurd hx (List.not_mem_nil x)
  | cons y ys ih =>
    cases hq : c.BatchContainerOp y batchInfo with
    | error e => exact ⟨[], y, ys, e, rfl, by simp, hq⟩
    | ok b =>
      have hys : ∃ x ∈ ys, ∃ e, c.BatchContainerOp x batchInfo = Except.error e := by
        obtain ⟨x, hx, e, he⟩ := h
        rcases List.mem_cons.mp hx with hxy | hxys
        · subst hxy
          rw [hq] at he
          cases he
        · exact ⟨x, hxys, e, he⟩
      obtain ⟨pre, ctr, post, e, hsplit, hpre, hfail⟩ := ih hys
      refine ⟨y :: pre, ctr, post, e, by simp [hsplit], ?_, hfail⟩
      intro x hx
      rcases List.mem_cons.mp hx with hxy | hxpre
      · subst hxy
        exact ⟨b, hq⟩
      · exact hpre x hxpre

/-- When the query of every member succeeds, the loop succeeds. -/
theorem listPodsContainersLoop_all_ok (c : Collab) (batchInfo : PsOptions)
    (ctrs : List Container) (acc : List ListPodContainerInfo)
    (h : ∀ x ∈ ctrs, ∃ b, c.BatchContainerOp x batchInfo = Except.ok b) :
    ∃ infos, listPodsContainersLoop c batchInfo ctrs acc = Except.ok infos := by
  induction ctrs generalizing acc with
  | nil => exact ⟨acc, rfl⟩
  | cons x xs ih =>
    obtain ⟨b, hb⟩ := h x (List.mem_cons_self x xs)
    simp only [listPodsContainersLoop, hb]
    exact ih _ (fun y hy => h y (List.mem_cons_of_mem x hy))

/-! ## makeListPod: failure and success -/

/-- The result of `makeListPod` when the loop over the members fails. -/
theorem makeListPod_of_loop_error (c : Collab) (pod : Pod) (batchInfo : PsOptions)
    (status : String) (ctrs : List Container) (e : GoError)
    (hs : c.GetPodStatus pod = Except.ok status)
    (hc : c.AllContainers pod = Except.ok ctrs)
    (hl : listPodsContainersLoop c batchInfo ctrs [] = Except.error e) :
    makeListPod c pod batchInfo = (default, some e) := by
  simp only [makeListPod, hs, hc, hl]

/-- C11: when the status query and the enumeration succeed and the query of at
least one member fails, there is a first failing member in enumeration order
(every member before it was queried successfully), and `makeListPod` returns
the error of that member together with the zero-valued `ListPodData`, whose
`Containersinfo` and `Numberofcontainers` are empty; the same holds for every
way of splitting the members at a first failing member. -/
theorem makeListPod_fail_fast (c : Collab) (pod : Pod) (batchInfo : PsOptions)
    (status : String) (ctrs : List Container)
    (hs : c.GetPodStatus pod = Except.ok status)
    (hc : c.AllContainers pod = Except.ok ctrs)
    (hex : ∃ x ∈ ctrs, ∃ e, c.BatchContainerOp x batchInfo = Except.error e) :
    (∃ pre ctr post e, ctrs = pre ++ ctr :: post
      ∧ (∀ x ∈ pre, ∃ b, c.BatchContainerOp x batchInfo = Except.ok b)
      ∧ c.BatchContainerOp ctr batchInfo = Except.error e
      ∧ makeListPod c pod batchInfo = (default, some e)
      ∧ (makeListPod c pod batchInfo).1.Containersinfo = []
      ∧ (makeListPod c pod batchInfo).1.Numberofcontainers = "")
    ∧ (∀ pre ctr post e, ctrs = pre ++ ctr :: post →
        (∀ x ∈ pre, ∃ b, c.BatchContainerOp x batchInfo = Except.ok b) →
        c.BatchContainerOp ctr batchInfo = Except.error e →
        makeListPod c pod batchInfo = (default, some e)) := by
  have hgen : ∀ pre ctr post e, ctrs = pre ++ ctr :: post →
      (∀ x ∈ pre, ∃ b, c.BatchContainerOp x batchInfo = Except.ok b) →
      c.BatchContainerOp ctr batchInfo = Except.error e →
      makeListPod c pod batchInfo = (default, some e) := by
    intro pre ctr post e hsplit hpre hfail
    apply makeListPod_of_loop_error c pod batchInfo status ctrs e hs hc
    rw [hsplit]
    exact listPodsContainersLoop_first_failure c batchInfo pre ctr post e [] hpre hfail
  refine ⟨?_, hgen⟩
  obtain ⟨pre, ctr, post, e, hsplit, hpre, hfail⟩ := exists_first_failure c batchInfo ctrs hex
  have hres := hgen pre ctr post e hsplit hpre hfail
  refine ⟨pre, ctr, post, e, hsplit, hpre, hfail, hres, ?_, ?_⟩
  · rw [hres]
    rfl
  · rw [hres]
    rfl

/-- C11 at concrete inputs: with the members `c1`, `c2`, `bad3`, of which only
the third cannot be queried, `makeListPod` returns the error of `bad3` and the
zero-valued record; with the members `c1`, `bad2`, `bad3` it returns the error
of `bad2`, the first failing member. -/
theorem makeListPod_fail_fast_witness :
    makeListPod failingCollab thirdFailsPod sampleOpts
        = (default, some ⟨"no such container bad3"⟩)
    ∧ makeListPod failingCollab twoFailPod sampleOpts
        = (default, some ⟨"no such container bad2"⟩) :=
  ⟨(makeListPod_fail_fast failingCollab thirdFailsPod sampleOpts "Degraded"
        [⟨"c1"⟩, ⟨"c2"⟩, ⟨"bad3"⟩] rfl rfl ⟨⟨"bad3"⟩, by decide, ⟨_⟩, rfl⟩).2
      [⟨"c1"⟩, ⟨"c2"⟩] ⟨"bad3"⟩ [] ⟨"no such container bad3"⟩ rfl
      (by
        intro x hx
        simp only [List.mem_cons, List.mem_singleton, List.not_mem_nil, or_false] at hx
        rcases hx with h | h <;> subst h <;> exact ⟨_, rfl⟩)
      rfl,
    (makeListPod_fail_fast failingCollab twoFailPod sampleOpts "Degraded"
        [⟨"c1"⟩, ⟨"bad2"⟩, ⟨"bad3"⟩] rfl rfl ⟨⟨"bad3"⟩, by decide, ⟨_⟩, rfl⟩).2
      [⟨"c1"⟩] ⟨"bad2"⟩ [⟨"bad3"⟩] ⟨"no such container bad2"⟩ rfl
      (by
        intro x hx
        simp only [List.mem_singleton] at hx
        subst hx
        exact ⟨_, rfl⟩)
      rfl⟩

/-- Every element of the left list of a pairwise relation has a partner. -/
theorem forall₂_mem_left {α β : Type} {R : α → β → Prop} {l₁ : List α} {l₂ : List β}
    (h : List.Forall₂ R l₁ l₂) : ∀ x ∈ l₁, ∃ y, y ∈ l₂ ∧ R x y := by
  induction h with
  | nil =>
    intro x hx
    exact absurd hx (List.not_mem_nil x)
  | cons hab _ ih =>
    intro x hx
    rcases List.mem_cons.mp hx with hxa | hxl
    · subst hxa
      exact ⟨_, List.mem_cons_self _ _, hab⟩
    · obtain ⟨y, hy, hR⟩ := ih x hxl
      exact ⟨y, List.mem_cons_of_mem _ hy, hR⟩

/-- Lists related pairwise have equal images under maps that agree on related
elements. -/
theorem forall₂_map_eq {α β γ : Type} {R : α → β → Prop} {f : α → γ} {g : β → γ}
    {l₁ : List α} {l₂ : List β} (h : List.Forall₂ R l₁ l₂)
    (hfg : ∀ a b, R a b → g b = f a) : l₂.map g = l₁.map f := by
  induction h with
  | nil => rfl
  | cons hab _ ih => simp only [List.map_cons, hfg _ _ hab, ih]

/-- C12: when the status query fails, `makeListPod` returns that error and the
zero-valued record, whatever the enumeration and the per-container queries
would return; when the status query succeeds and the enumeration fails, it
returns the enumeration error and the zero-valued record; and it returns a nil
error exactly when the status query, the enumeration and the query of every
member succeed. -/
theorem makeListPod_abort (c : Collab) (pod : Pod) (batchInfo : PsOptions) :
    (∀ e, c.GetPodStatus pod = Except.error e →
        makeListPod c pod batchInfo = (default, some e)
        ∧ ∀ c2 : Collab, c2.GetPodStatus pod = Except.error e →
            makeListPod c2 pod batchInfo = makeListPod c pod batchInfo)
    ∧ (∀ status e, c.GetPodStatus pod = Except.ok status →
        c.AllContainers pod = Except.error e →
        makeListPod c pod batchInfo = (default, some e))
    ∧ ((makeListPod c pod batchInfo).2 = none ↔
        ∃ status ctrs, c.GetPodStatus pod = Except.ok status
          ∧ c.AllContainers pod = Except.ok ctrs
          ∧ ∀ x ∈ ctrs, ∃ b, c.BatchContainerOp x batchInfo = Except.ok b) := by
  refine ⟨?_, ?_, ?_, ?_⟩
  · intro e he
    refine ⟨by simp only [makeListPod, he], ?_⟩
    intro c2 he2
    simp only [makeListPod, he, he2]
  · intro status e hs hc
    simp only [makeListPod, hs, hc]
  · intro h
    obtain ⟨status, ctrs, infos, hs, hc, hl, -⟩ := makeListPod_success c pod batchInfo h
    refine ⟨status, ctrs, hs, hc, ?_⟩
    obtain ⟨tail, -, hall⟩ := listPodsContainersLoop_ok c batchInfo ctrs [] infos hl
    intro x hx
    obtain ⟨info, -, b, hb, -⟩ := forall₂_mem_left hall x hx
    exact ⟨b, hb⟩
  · rintro ⟨status, ctrs, hs, hc, hall⟩
    obtain ⟨infos, hl⟩ := listPodsContainersLoop_all_ok c batchInfo ctrs [] hall
    simp only [makeListPod, hs, hc, hl]

/-- C12 at concrete inputs: a pod whose status query fails (and whose
enumeration would fail too) yields the status error; a pod whose enumeration
fails yields the enumeration error; both come with the zero-valued record. -/
theorem makeListPod_abort_witness :
    makeListPod failingCollab noStatusPod sampleOpts
        = (default, some ⟨"no status for pod p8"⟩)
    ∧ makeListPod failingCollab noListPod sampleOpts
        = (default, some ⟨"cannot list pod p9"⟩) :=
  ⟨((makeListPod_abort failingCollab noStatusPod sampleOpts).1
      ⟨"no status for pod p8"⟩ rfl).1,
    (makeListPod_abort failingCollab noListPod sampleOpts).2.1
      "Degraded" ⟨"cannot list pod p9"⟩ rfl rfl⟩

/-- C13: whenever `makeListPod` succeeds, the status query and the enumeration
succeeded, `Containersinfo` pairs off with the enumerated members in order, the
entry of a member having its `ID()` as `Id`, the string form of its queried
run-state as `Status` and its configured name as `Name`; the list is as long as
the membership; and `Status`, `Id`, `Name` and `Cgroup` of the pod record are
the queried status and the pod's id, name and cgroup parent. -/
theorem makeListPod_content (c : Collab) (pod : Pod) (batchInfo : PsOptions)
    (h : (makeListPod c pod batchInfo).2 = none) :
    ∃ status ctrs, c.GetPodStatus pod = Except.ok status
      ∧ c.AllContainers pod = Except.ok ctrs
      ∧ List.Forall₂
          (fun ctr info => ∃ b, c.BatchContainerOp ctr batchInfo = Except.ok b
            ∧ info.Id = ctr.ID
            ∧ info.Status = c.StatusString b.ConState
            ∧ info.Name = b.ConConfig.Name)
          ctrs (makeListPod c pod batchInfo).1.Containersinfo
      ∧ (makeListPod c pod batchInfo).1.Containersinfo.length = ctrs.length
      ∧ (makeListPod c pod batchInfo).1.Containersinfo.map (fun info => info.Id)
          = ctrs.map (fun ctr => ctr.ID)
      ∧ (makeListPod c pod batchInfo).1.Status = status
      ∧ (makeListPod c pod batchInfo).1.Id = pod.ID
      ∧ (makeListPod c pod batchInfo).1.Name = pod.Name
      ∧ (makeListPod c pod batchInfo).1.Cgroup = pod.CgroupParent := by
  obtain ⟨status, ctrs, infos, hs, hc, hl, hres⟩ := makeListPod_success c pod batchInfo h
  obtain ⟨tail, htail, hall⟩ := listPodsContainersLoop_ok c batchInfo ctrs [] infos hl
  simp only [List.nil_append] at htail
  subst htail
  have hall2 : List.Forall₂
      (fun ctr info => ∃ b, c.BatchContainerOp ctr batchInfo = Except.ok b
        ∧ info.Id = ctr.ID
        ∧ info.Status = c.StatusString b.ConState
        ∧ info.Name = b.ConConfig.Name) ctrs infos := by
    refine List.Forall₂.imp ?_ hall
    rintro ctr info ⟨b, hb, rfl⟩
    exact ⟨b, hb, rfl, rfl, rfl⟩
  have hids : infos.map (fun info => info.Id) = ctrs.map (fun ctr => ctr.ID) :=
    forall₂_map_eq hall2 (fun _ _ hab => hab.elim (fun _ hb => hb.2.1))
  rw [hres]
  exact ⟨status, ctrs, hs, hc, hall2, hall2.length_eq.symm, hids, rfl, rfl, rfl, rfl⟩

/-- C13 at a concrete input: the pod with the members `c1` and `c2`, both
running, yields the two projections in enumeration order and the pod's own
status, id, name and cgroup parent. -/
theorem makeListPod_content_witness :
    (makeListPod sampleCollab webPod sampleOpts).2 = none
    ∧ (makeListPod sampleCollab webPod sampleOpts).1.Containersinfo
        = [⟨"c1", "running", "name-c1"⟩, ⟨"c2", "running", "name-c2"⟩]
    ∧ (makeListPod sampleCollab webPod sampleOpts).1.Containersinfo.length = 2
    ∧ (makeListPod sampleCollab webPod sampleOpts).1.Status = "Running"
    ∧ (makeListPod sampleCollab webPod sampleOpts).1.Id = "p1"
    ∧ (makeListPod sampleCollab webPod sampleOpts).1.Name = "web"
    ∧ (makeListPod sampleCollab webPod sampleOpts).1.Cgroup = "machine.slice" := by
  obtain ⟨status, ctrs, hs, hc, -, hlen, -, hst, hid, hname, hcg⟩ :=
    makeListPod_content sampleCollab webPod sampleOpts (by decide)
  have hctrs : ctrs = [⟨"c1"⟩, ⟨"c2"⟩] := by
    have : sampleCollab.AllContainers webPod = Except.ok [⟨"c1"⟩, ⟨"c2"⟩] := rfl
    rw [this] at hc
    cases hc
    rfl
  have hstatus : status = "Running" := by
    have : sampleCollab.GetPodStatus webPod = Except.ok "Running" := rfl
    rw [this] at hs
    cases hs
    rfl
  subst hctrs hstatus
  exact ⟨by decide, by decide, hlen, hst, hid, hname, hcg⟩

/-! ## Properties of makeListContainer -/

/-- A loop that appends one converted element per input element builds the
image of the input behind what was there. -/
theorem foldl_append_map {α β : Type} (f : α → β) (l : List α) (init : List β) :
    l.foldl (fun acc x => acc ++ [f x]) init = init ++ l.map f := by
  induction l generalizing init with
  | nil => simp
  | cons x xs ih => simp [List.foldl_cons, ih]

/-- The `Ports` field of the snapshot. -/
theorem makeListContainer_Ports (c : Collab) (containerID : String)
    (batchInfo : BatchContainerStruct) :
    (makeListContainer c containerID batchInfo).Ports
      = batchInfo.ConConfig.PortMappings.map
          (fun pm => ContainerPortMappings.mk (Itoa pm.HostPort) pm.HostIP pm.Protocol
            (Itoa pm.ContainerPort)) := by
  unfold makeListContainer
  cases batchInfo.Size <;> simp [foldl_append_map]

/-- The `Mounts` field of the snapshot. -/
theorem makeListContainer_Mounts (c : Collab) (containerID : String)
    (batchInfo : BatchContainerStruct) :
    (makeListContainer c containerID batchInfo).Mounts
      = batchInfo.ConConfig.Mounts.map
          (fun mount =>
            ContainerMount.mk mount.Destination mount.Type_ mount.Source mount.Options) := by
  unfold makeListContainer
  cases batchInfo.Size <;> simp [foldl_append_map]

/-- C14: the `Ports` list of the snapshot is the list of port mappings of the
bundle converted one by one, in order, so it has the same length; at every
index `Host_port` and `Container_port` are the decimal strings of the host and
container port, `Host_ip` and `Protocol` are copied, and reading either string
back as an integer gives the source port; a single mapping of host port 8080 to
container port 80 gives `Host_port = "8080"` and `Container_port = "80"`. -/
theorem makeListContainer_ports_decimal (c : Collab) (containerID : String)
    (batchInfo : BatchContainerStruct) :
    (makeListContainer c containerID batchInfo).Ports
        = batchInfo.ConConfig.PortMappings.map
            (fun pm => ContainerPortMappings.mk (Itoa pm.HostPort) pm.HostIP pm.Protocol
              (Itoa pm.ContainerPort))
    ∧ (makeListContainer c containerID batchInfo).Ports.length
        = batchInfo.ConConfig.PortMappings.length
    ∧ (∀ (i : Nat) (pm : PortMapping), batchInfo.ConConfig.PortMappings[i]? = some pm →
        ∃ p : ContainerPortMappings,
          (makeListContainer c containerID batchInfo).Ports[i]? = some p
          ∧ p.Host_port = Itoa pm.HostPort
          ∧ p.Container_port = Itoa pm.ContainerPort
          ∧ p.Host_ip = pm.HostIP
          ∧ p.Protocol = pm.Protocol
          ∧ parseDecimal p.Host_port = some pm.HostPort
          ∧ parseDecimal p.Container_port = some pm.ContainerPort)
    ∧ (∀ protocol hostIP,
        batchInfo.ConConfig.PortMappings = [⟨8080, 80, protocol, hostIP⟩] →
        (makeListContainer c containerID batchInfo).Ports
          = [⟨"8080", hostIP, protocol, "80"⟩]) := by
  have hports := makeListContainer_Ports c containerID batchInfo
  refine ⟨hports, by simp [hports], ?_, ?_⟩
  · intro i pm hpm
    refine ⟨⟨Itoa pm.HostPort, pm.HostIP, pm.Protocol, Itoa pm.ContainerPort⟩, ?_,
      rfl, rfl, rfl, rfl, parseDecimal_Itoa _, parseDecimal_Itoa _⟩
    simp [hports, List.getElem?_map, hpm]
  · intro protocol hostIP hpm
    rw [hports, hpm]
    have h1 : Itoa 8080 = "8080" := by decide
    have h2 : Itoa 80 = "80" := by decide
    simp [h1, h2]

/-- C14 at a concrete input: the bundle with the single mapping of host port
8080 to container port 80 yields `Host_port = "8080"`, `Container_port = "80"`,
and both strings read back as 8080 and 80. -/
theorem makeListContainer_ports_decimal_witness :
    (makeListContainer sampleCollab "c1" sampleBundle).Ports
        = [⟨"8080", "0.0.0.0", "tcp", "80"⟩]
    ∧ parseDecimal "8080" = some 8080
    ∧ parseDecimal "80" = some 80 :=
  ⟨(makeListContainer_ports_decimal sampleCollab "c1" sampleBundle).2.2.2
      "tcp" "0.0.0.0" rfl,
    by decide, by decide⟩

/-- C15: a bundle without size data yields `Rootfssize = 0` and `Rwsize = 0`; a
bundle with size data yields the supplied `RootFsSize` and `RwSize`; hence a
bundle without size data and the same bundle with explicit zero sizes yield the
same size fields, and indeed the same snapshot. -/
theorem makeListContainer_size (c : Collab) (containerID : String)
    (batchInfo : BatchContainerStruct) :
    (batchInfo.Size = none →
        (makeListContainer c containerID batchInfo).Rootfssize = 0
        ∧ (makeListContainer c containerID batchInfo).Rwsize = 0)
    ∧ (∀ size, batchInfo.Size = some size →
        (makeListContainer c containerID batchInfo).Rootfssize = size.RootFsSize
        ∧ (makeListContainer c containerID batchInfo).Rwsize = size.RwSize)
    ∧ (makeListContainer c containerID { batchInfo with Size := none }).Rootfssize
        = (makeListContainer c containerID { batchInfo with Size := some ⟨0, 0⟩ }).Rootfssize
    ∧ (makeListContainer c containerID { batchInfo with Size := none }).Rwsize
        = (makeListContainer c containerID { batchInfo with Size := some ⟨0, 0⟩ }).Rwsize
    ∧ makeListContainer c containerID { batchInfo with Size := none }
        = makeListContainer c containerID { batchInfo with Size := some ⟨0, 0⟩ } := by
  refine ⟨?_, ?_, rfl, rfl, rfl⟩
  · intro h
    simp [makeListContainer, h]
  · intro size h
    simp [makeListContainer, h]

/-- C15 at concrete inputs: the bundle without size data and the bundle with
explicit zero sizes both yield the size fields 0 and 0, and the bundle with the
sizes 1024 and 512 yields these. -/
theorem makeListContainer_size_witness :
    ((makeListContainer sampleCollab "c1" sampleBundle).Rootfssize = 0
      ∧ (makeListContainer sampleCollab "c1" sampleBundle).Rwsize = 0)
    ∧ ((makeListContainer sampleCollab "c1" zeroSizeBundle).Rootfssize = 0
      ∧ (makeListContainer sampleCollab "c1" zeroSizeBundle).Rwsize = 0)
    ∧ ((makeListContainer sampleCollab "c1" sizedBundle).Rootfssize = 1024
      ∧ (makeListContainer sampleCollab "c1" sizedBundle).Rwsize = 512) :=
  ⟨(makeListContainer_size sampleCollab "c1" sampleBundle).1 rfl,
    (makeListContainer_size sampleCollab "c1" zeroSizeBundle).2.1 ⟨0, 0⟩ rfl,
    (makeListContainer_size sampleCollab "c1" sizedBundle).2.1 ⟨1024, 512⟩ rfl⟩

/-- C16: the `Mounts` list of the snapshot is the list of mounts of the bundle
copied one by one, in order, so it has the same length, and at every index the
output mount has the `Destination`, `Type`, `Source` and `Options` of the input
mount at that index. -/
theorem makeListContainer_mounts_copy (c : Collab) (containerID : String)
    (batchInfo : BatchContainerStruct) :
    (makeListContainer c containerID batchInfo).Mounts
        = batchInfo.ConConfig.Mounts.map
            (fun mount =>
              ContainerMount.mk mount.Destination mount.Type_ mount.Source mount.Options)
    ∧ (makeListContainer c containerID batchInfo).Mounts.length
        = batchInfo.ConConfig.Mounts.length
    ∧ (∀ (i : Nat) (mount : SpecMount), batchInfo.ConConfig.Mounts[i]? = some mount →
        ∃ m : ContainerMount,
          (makeListContainer c containerID batchInfo).Mounts[i]? = some m
          ∧ m.Destination = mount.Destination
          ∧ m.Type_ = mount.Type_
          ∧ m.Source = mount.Source
          ∧ m.Options = mount.Options)
    ∧ (∀ i : Nat, batchInfo.ConConfig.Mounts[i]? = none →
        (makeListContainer c containerID batchInfo).Mounts[i]? = none) := by
  have hmounts := makeListContainer_Mounts c containerID batchInfo
  refine ⟨hmounts, by simp [hmounts], ?_, ?_⟩
  · intro i mount hm
    refine ⟨⟨mount.Destination, mount.Type_, mount.Source, mount.Options⟩, ?_,
      rfl, rfl, rfl, rfl⟩
    simp [hmounts, List.getElem?_map, hm]
  · intro i hnone
    simp [hmounts, List.getElem?_map, hnone]

/-- C16 at a concrete input: the two mounts of the bundle come out in the same
order with the same fields. -/
theorem makeListContainer_mounts_copy_witness :
    (makeListContainer sampleCollab "c1" sampleBundle).Mounts
      = [⟨"/proc", "proc", "proc", ["nosuid", "noexec"]⟩,
          ⟨"/data", "bind", "/srv/data", ["rw"]⟩] :=
  (makeListContainer_mounts_copy sampleCollab "c1" sampleBundle).1

/-! ## The pre-sized failure list of handlePodCall -/

/-- C17: for every non-nil map with `n` entries, visited by `range` in the
order `m`, the list handed to `ReplyPodContainerError` has length `2 * n`; its
first `n` elements are zero-valued entries (empty `Containerid` and `Reason`);
its last `n` elements are the pairs (container id, `reason.Error()`) of the
map in the order of the visit, hence a permutation of the pairs under every
other listing of the same entries; and for `n ≥ 1` the list starts with an empty
entry. -/
theorem handlePodCall_presized_list (call : VarlinkCall) (pod : Pod) (m : ErrMap)
    (err : Option GoError) :
    ∃ errs : List PodContainerErrorData,
      (handlePodCall call pod (some m) err).sent = [Reply.PodContainerError pod.ID errs]
      ∧ errs.length = 2 * m.length
      ∧ errs.take m.length = List.replicate m.length ⟨"", ""⟩
      ∧ errs.drop m.length
          = m.map (fun entry => PodContainerErrorData.mk entry.1 entry.2.Error)
      ∧ (∀ m2 : ErrMap, m2.Perm m →
          (errs.drop m.length).Perm
            (m2.map (fun entry => PodContainerErrorData.mk entry.1 entry.2.Error)))
      ∧ (1 ≤ m.length → errs.head? = some ⟨"", ""⟩) := by
  refine ⟨containerErrs m, ?_, ?_, ?_, ?_, ?_, ?_⟩
  · cases err <;> simp [handlePodCall, VarlinkCall.ReplyPodContainerError]
  · rw [containerErrs_eq]
    simp only [List.length_append, List.length_replicate, List.length_map]
    omega
  · rw [containerErrs_eq]
    rw [List.take_left' (by simp)]
    rfl
  · rw [containerErrs_eq]
    rw [List.drop_left' (by simp)]
  · intro m2 hperm
    rw [containerErrs_eq, List.drop_left' (by simp)]
    exact (hperm.map _).symm
  · intro hlen
    rw [containerErrs_eq]
    cases m with
    | nil => simp at hlen
    | cons x xs => rfl

/-- C17 at a concrete input: the map with the entries `c1: boom` and
`c2: bang` yields two empty entries followed by the two real pairs. -/
theorem handlePodCall_presized_list_witness :
    (∃ errs : List PodContainerErrorData,
      (handlePodCall ⟨fun _ => none⟩ webPod
          (some [("c1", ⟨"boom"⟩), ("c2", ⟨"bang"⟩)]) (some ⟨"start failed"⟩)).sent
        = [Reply.PodContainerError "p1" errs]
      ∧ errs.length = 4
      ∧ errs.head? = some ⟨"", ""⟩)
    ∧ (handlePodCall ⟨fun _ => none⟩ webPod
          (some [("c1", ⟨"boom"⟩), ("c2", ⟨"bang"⟩)]) (some ⟨"start failed"⟩)).sent
        = [Reply.PodContainerError "p1"
            [⟨"", ""⟩, ⟨"", ""⟩, ⟨"c1", "boom"⟩, ⟨"c2", "bang"⟩]] := by
  obtain ⟨errs, hsent, hlen, -, -, -, hhead⟩ :=
    handlePodCall_presized_list ⟨fun _ => none⟩ webPod
      [("c1", ⟨"boom"⟩), ("c2", ⟨"bang"⟩)] (some ⟨"start failed"⟩)
  exact ⟨⟨errs, hsent, hlen, hhead (by decide)⟩, by decide⟩

/-! ## Running flag and pod projection -/

/-- C18: `Containerrunning` of the snapshot is true exactly when the run-state
of the bundle is `ContainerStateRunning`, and `Status` is the string form of
that same run-state; so a snapshot flagged running carries the string form of
the running state, and, the string form of the running state being that of no
other state, a snapshot is flagged running exactly when its `Status` is that
string. -/
theorem makeListContainer_running (c : Collab) (containerID : String)
    (batchInfo : BatchContainerStruct) :
    ((makeListContainer c containerID batchInfo).Containerrunning = true
        ↔ batchInfo.ConState = c.ContainerStateRunning)
    ∧ (makeListContainer c containerID batchInfo).Status = c.StatusString batchInfo.ConState
    ∧ ((makeListContainer c containerID batchInfo).Containerrunning = true →
        (makeListContainer c containerID batchInfo).Status
          = c.StatusString c.ContainerStateRunning)
    ∧ ((∀ st, c.StatusString st = c.StatusString c.ContainerStateRunning →
          st = c.ContainerStateRunning) →
        ((makeListContainer c containerID batchInfo).Containerrunning = true
          ↔ (makeListContainer c containerID batchInfo).Status
              = c.StatusString c.ContainerStateRunning)) := by
  have hrun : (makeListContainer c containerID batchInfo).Containerrunning
      = decide (batchInfo.ConState = c.ContainerStateRunning) := by
    unfold makeListContainer
    cases batchInfo.Size <;> rfl
  have hstatus : (makeListContainer c containerID batchInfo).Status
      = c.StatusString batchInfo.ConState := by
    unfold makeListContainer
    cases batchInfo.Size <;> rfl
  refine ⟨by simp [hrun], hstatus, ?_, ?_⟩
  · intro h
    rw [hrun, decide_eq_true_eq] at h
    rw [hstatus, h]
  · intro hinj
    rw [hrun, hstatus, decide_eq_true_eq]
    exact ⟨fun h => by rw [h], fun h => hinj _ h⟩

/-- C18 at concrete inputs: the running bundle is flagged running with status
`running`; the bundle in another run-state is not flagged and has another
status. -/
theorem makeListContainer_running_witness :
    ((makeListContainer sampleCollab "c1" sampleBundle).Containerrunning = true
      ∧ (makeListContainer sampleCollab "c1" sampleBundle).Status = "running")
    ∧ ((makeListContainer sampleCollab "c1" stoppedBundle).Containerrunning = false
      ∧ (makeListContainer sampleCollab "c1" stoppedBundle).Status = "unknown") :=
  ⟨⟨by decide,
      (makeListContainer_running sampleCollab "c1" sampleBundle).2.2.1 (by decide)⟩,
    ⟨by decide, (makeListContainer_running sampleCollab "c1" stoppedBundle).2.1⟩⟩

/-- C19: for every container id and state bundle, the `Id`, `Status` and `Name`
of `makeListPodContainers` are the `Id`, `Status` and `Names` of
`makeListContainer`, whatever the namespace lookup, the clock and the time
formatting return for the full snapshot. -/
theorem makeListPodContainers_agrees (c : Collab) (containerID : String)
    (batchInfo : BatchContainerStruct) :
    ((makeListPodContainers c containerID batchInfo).Id
        = (makeListContainer c containerID batchInfo).Id
      ∧ (makeListPodContainers c containerID batchInfo).Status
        = (makeListContainer c containerID batchInfo).Status
      ∧ (makeListPodContainers c containerID batchInfo).Name
        = (makeListContainer c containerID batchInfo).Names)
    ∧ (∀ (ns : Int → Namespace) (since fmt : Time → String),
        (makeListPodContainers c containerID batchInfo).Id
          = (makeListContainer
              { c with GetNamespaces := ns, SinceString := since, FormatRFC3339 := fmt }
              containerID batchInfo).Id
        ∧ (makeListPodContainers c containerID batchInfo).Status
          = (makeListContainer
              { c with GetNamespaces := ns, SinceString := since, FormatRFC3339 := fmt }
              containerID batchInfo).Status
        ∧ (makeListPodContainers c containerID batchInfo).Name
          = (makeListContainer
              { c with GetNamespaces := ns, SinceString := since, FormatRFC3339 := fmt }
              containerID batchInfo).Names) := by
  refine ⟨?_, ?_⟩
  · unfold makeListContainer makeListPodContainers
    cases batchInfo.Size <;> exact ⟨rfl, rfl, rfl⟩
  · intro ns since fmt
    unfold makeListContainer makeListPodContainers
    cases batchInfo.Size <;> exact ⟨rfl, rfl, rfl⟩

end Varlinkapi
